import Mathlib

/-!
Verification of `databasemanager/manager.py` (a SQLAlchemy-based database
access facade) against its design specification.

The Python source is shallowly embedded below.  Pure code (`build_url`) is
translated directly.  Stateful code (engine construction, the scoped
unit-of-work context manager `session`, `sql_raw`, `orm`, `_Query.to_df`,
`create_all`) is embedded as explicit state passing: the behaviour of the
external SQLAlchemy collaborators (whether a commit/rollback/probe raises,
which rows an execution returns, the `scoped_session` context registry, the
`checkfirst` table-creation contract of `MetaData.create_all`) is passed in
as data, and each operation returns its result together with an explicit
trace of the session-lifecycle events it performed, in order.
-/

namespace DBM

/-- Python truthiness of an optional string argument: `None` and the empty
string are falsy, every other string is truthy (used by the source in
`if user and password`, `if host`, `if port and ...`). -/
def pyTruthy : Option String → Bool
  | none => false
  | some s => !(s == "")

/-- Python `str.lower()` on the ASCII driver/port strings the source
compares (`driver.lower()`, `str(port).lower()`). -/
def strLower (s : String) : String :=
  String.mk (s.data.map Char.toLower)

/-- `database.replace('\\', '/')` from `build_url` (manager.py line 108):
every backslash becomes a forward slash. -/
def normSlashes (database : String) : String :=
  String.mk (database.data.map (fun c => if c = '\\' then '/' else c))

/-- The `while path.startswith('/'): path = path[1:]` loop from `build_url`
(manager.py line 110): drop every leading forward slash. -/
def stripLeadingSlashes (path : String) : String :=
  String.mk (path.data.dropWhile (fun c => c = '/'))

/-- `DatabaseManager.build_url` (manager.py lines 107-127), translated
clause by clause from the source:
sqlite branch on `driver.lower() == 'sqlite'` with UNC special case on
`database.startswith('\\\\')`; otherwise credential/host/port assembly with
Python truthiness, and the fixed ODBC suffix when `driver == "mssql+pyodbc"`. -/
def build_url (driver database : String) (user password host port : Option String) : String :=
  if strLower driver = "sqlite" then
    let path := normSlashes database
    if database.data.take 2 = ['\\', '\\'] then
      "sqlite:////" ++ stripLeadingSlashes path
    else
      "sqlite:///" ++ path
  else
    let auth :=
      if pyTruthy user && pyTruthy password then
        user.getD "" ++ ":" ++ password.getD "" ++ "@"
      else ""
    let hostBase := if pyTruthy host then host.getD "" else "localhost"
    let hostPart :=
      if pyTruthy port && !(strLower (port.getD "") == "none") then
        hostBase ++ ":" ++ port.getD ""
      else hostBase
    let dbUrl := driver ++ "://" ++ auth ++ hostPart ++ "/" ++ database
    if driver = "mssql+pyodbc" then
      dbUrl ++ "?driver=ODBC+Driver+17+for+SQL+Server"
    else dbUrl

/-- No character of a slash-normalized path is a backslash. -/
theorem normSlashes_no_backslash (database : String) :
    '\\' ∉ (normSlashes database).data := by
  intro hmem
  simp only [normSlashes, List.mem_map] at hmem
  obtain ⟨c, _, hc⟩ := hmem
  by_cases h : c = '\\' <;> simp [h] at hc

/-- Dropping leading slashes preserves backslash-freeness. -/
theorem stripLeadingSlashes_no_backslash (path : String)
    (h : '\\' ∉ path.data) : '\\' ∉ (stripLeadingSlashes path).data := by
  intro hmem
  exact h ((List.dropWhile_sublist _).mem hmem)

/-- C3: for every path given with the file-based driver (matched
case-insensitively), `build_url` normalizes every backslash to a forward
slash; if the original path begins with a double backslash (UNC form) the
result is the scheme followed by four slashes and the slash-stripped
normalized path, otherwise the scheme followed by three slashes and the
normalized path; the output never contains a backslash. -/
theorem build_url_sqlite_spec (driver database : String)
    (user password host port : Option String)
    (h : strLower driver = "sqlite") :
    '\\' ∉ (build_url driver database user password host port).data ∧
    (database.data.take 2 = ['\\', '\\'] →
      build_url driver database user password host port =
        "sqlite:" ++ "////" ++ stripLeadingSlashes (normSlashes database)) ∧
    (database.data.take 2 ≠ ['\\', '\\'] →
      build_url driver database user password host port =
        "sqlite:" ++ "///" ++ normSlashes database) := by
  unfold build_url
  rw [if_pos h]
  by_cases hu : database.data.take 2 = ['\\', '\\']
  · rw [if_pos hu]
    refine ⟨?_, fun _ => rfl, fun hn => absurd hu hn⟩
    intro hmem
    rw [String.data_append] at hmem
    rcases List.mem_append.mp hmem with hl | hr
    · simp at hl
    · exact stripLeadingSlashes_no_backslash _ (normSlashes_no_backslash database) hr
  · rw [if_neg hu]
    refine ⟨?_, fun hy => absurd hy hu, fun _ => rfl⟩
    intro hmem
    rw [String.data_append] at hmem
    rcases List.mem_append.mp hmem with hl | hr
    · simp at hl
    · exact normSlashes_no_backslash database hr

/-- C3 witness: the theorem applied at the spec's two concrete scenarios,
a UNC network path and a local path. -/
theorem build_url_sqlite_spec_witness :
    (build_url "sqlite" "\\\\SRV\\share\\db.sqlite" none none none none =
      "sqlite:" ++ "////" ++ stripLeadingSlashes (normSlashes "\\\\SRV\\share\\db.sqlite")) ∧
    (build_url "sqlite" "C:/data/app.db" none none none none =
      "sqlite:" ++ "///" ++ normSlashes "C:/data/app.db") ∧
    build_url "sqlite" "\\\\SRV\\share\\db.sqlite" none none none none =
      "sqlite:////SRV/share/db.sqlite" ∧
    build_url "sqlite" "C:/data/app.db" none none none none = "sqlite:///C:/data/app.db" :=
  ⟨(build_url_sqlite_spec "sqlite" "\\\\SRV\\share\\db.sqlite" none none none none
      (by decide)).2.1 (by decide),
   (build_url_sqlite_spec "sqlite" "C:/data/app.db" none none none none
      (by decide)).2.2 (by decide),
   by decide, by decide⟩

/-- C4 counterexample: `"mssql+pyodbc"` is a non-file driver, yet the
output is not `driver://host/database` — the source (manager.py lines
124-125) appends a fixed ODBC query suffix, which the claim's assembled
form omits. -/
theorem build_url_mssql_refutes_plain_form :
    strLower "mssql+pyodbc" ≠ "sqlite" ∧
    build_url "mssql+pyodbc" "db" none none none none ≠ "mssql+pyodbc://localhost/db" ∧
    build_url "mssql+pyodbc" "db" none none none none =
      "mssql+pyodbc://localhost/db?driver=ODBC+Driver+17+for+SQL+Server" := by
  refine ⟨by decide, by decide, by decide⟩

/-- The credential segment exactly as the spec words it: present only when
both `user` and `password` are non-empty, never partial. -/
def credSegment (user password : Option String) : String :=
  if pyTruthy user && pyTruthy password then
    user.getD "" ++ ":" ++ password.getD "" ++ "@"
  else ""

/-- The host segment exactly as the spec words it: `host`, defaulting to
`"localhost"` when absent (or empty). -/
def hostSegment (host : Option String) : String :=
  if pyTruthy host then host.getD "" else "localhost"

/-- The port segment exactly as the spec words it: `:<port>` only when
`port` is present and is not the string `"none"` case-insensitively. -/
def portSegment (port : Option String) : String :=
  if pyTruthy port && !(strLower (port.getD "") == "none") then
    ":" ++ port.getD ""
  else ""

/-- The fixed ODBC driver-version query suffix appended exactly when the
driver is the MSSQL ODBC identifier (manager.py lines 124-125). -/
def odbcSuffix (driver : String) : String :=
  if driver = "mssql+pyodbc" then "?driver=ODBC+Driver+17+for+SQL+Server" else ""

/-- The source's fused host-and-port expression splits into the spec's
separate host and port segments. -/
theorem hostPart_split (host port : Option String) :
    (if pyTruthy port && !(strLower (port.getD "") == "none") then
        (if pyTruthy host then host.getD "" else "localhost") ++ ":" ++ port.getD ""
      else (if pyTruthy host then host.getD "" else "localhost")) =
      hostSegment host ++ portSegment port := by
  unfold hostSegment portSegment
  by_cases hC : pyTruthy port && !(strLower (port.getD "") == "none")
  · rw [if_pos hC, if_pos hC, String.append_assoc]
  · rw [if_neg hC, if_neg hC, String.append_empty]

/-- C4 (amended): for every non-file driver `build_url` returns
`driver://[user:password@]host[:port]/database` followed by the fixed ODBC
suffix exactly when the driver is `"mssql+pyodbc"`; the credential segment
appears only when both `user` and `password` are non-empty, `host` defaults
to `"localhost"` when absent, and `:<port>` appears only when `port` is
present and not `"none"` case-insensitively. -/
theorem build_url_nonfile_assembly (driver database : String)
    (user password host port : Option String)
    (h : strLower driver ≠ "sqlite") :
    build_url driver database user password host port =
      driver ++ "://" ++ credSegment user password ++ hostSegment host ++
        portSegment port ++ "/" ++ database ++ odbcSuffix driver ∧
    (¬(pyTruthy user = true ∧ pyTruthy password = true) →
      credSegment user password = "") ∧
    (pyTruthy host = false → hostSegment host = "localhost") ∧
    (port = none → portSegment port = "") ∧
    (∀ s, port = some s → strLower s = "none" → portSegment port = "") := by
  refine ⟨?_, ?_, ?_, ?_, ?_⟩
  · show (if strLower driver = "sqlite" then _ else _) = _
    rw [if_neg h]
    show (if driver = "mssql+pyodbc" then _ ++ _ else _) = _
    rw [hostPart_split]
    show (if driver = "mssql+pyodbc" then
        (driver ++ "://" ++ credSegment user password ++
          (hostSegment host ++ portSegment port) ++ "/" ++ database) ++
          "?driver=ODBC+Driver+17+for+SQL+Server"
      else driver ++ "://" ++ credSegment user password ++
          (hostSegment host ++ portSegment port) ++ "/" ++ database) = _
    unfold odbcSuffix
    by_cases hd : driver = "mssql+pyodbc"
    · rw [if_pos hd, if_pos hd]
      simp only [String.append_assoc]
    · rw [if_neg hd, if_neg hd, String.append_empty]
      simp only [String.append_assoc]
  · intro hnot
    unfold credSegment
    rw [if_neg]
    intro hb
    rw [Bool.and_eq_true] at hb
    exact hnot hb
  · intro hh
    unfold hostSegment
    rw [hh]
    rfl
  · intro hp
    unfold portSegment
    rw [hp]
    rfl
  · intro s hs hlow
    unfold portSegment
    rw [hs]
    simp [hlow]

/-- C4 (amended) witness: the theorem applied at the spec's concrete
scenario `build_url('postgresql', 'mydb', host='db1', port='5432')`, plus
the evaluated output. -/
theorem build_url_nonfile_assembly_witness :
    (build_url "postgresql" "mydb" none none (some "db1") (some "5432") =
      "postgresql" ++ "://" ++ credSegment none none ++ hostSegment (some "db1") ++
        portSegment (some "5432") ++ "/" ++ "mydb" ++ odbcSuffix "postgresql") ∧
    build_url "postgresql" "mydb" none none (some "db1") (some "5432") =
      "postgresql://db1:5432/mydb" :=
  ⟨(build_url_nonfile_assembly "postgresql" "mydb" none none (some "db1") (some "5432")
      (by decide)).1,
   by decide⟩

/-! ## Session lifecycle model

`DatabaseManager.session` (manager.py lines 129-140) is a context manager:

    session = self.Session()
    try:
        yield session
        session.commit()
    except Exception:
        session.rollback()
        raise
    finally:
        session.close()

We embed it over an explicit event trace.  The body's outcome and whether
the engine-level `commit`/`rollback` calls themselves raise are inputs
(they are behaviour of the external SQLAlchemy Session); the embedding
computes the resulting control flow of the `try/except/finally` exactly as
Python does: a commit failure is caught by the `except` clause (commit sits
inside the `try`), triggering rollback and re-raising; a rollback failure
replaces the in-flight exception; `finally` runs `close` on every path. -/

/-- Session-lifecycle events, in the order they are performed.
`commit`/`rollback` mark successful calls, `commitFailed`/`rollbackFailed`
calls that raised; `execOnBind` marks a statement executed directly against
the session's bound connection (`pd.read_sql(self.statement,
self.session.bind)`); `materializeRows` marks row-object materialization
(never performed by `to_df`). -/
inductive Ev
  | commit
  | commitFailed
  | rollback
  | rollbackFailed
  | close
  | execOnBind
  | materializeRows
  deriving DecidableEq, Repr

/-- Whether the external Session's own `commit()` / `rollback()` calls
raise, and with which error. -/
structure SessionFates (ε : Type) where
  commitFail : Option ε
  rollbackFail : Option ε

/-- The `try/except/finally` of `DatabaseManager.session` (manager.py
lines 129-140), given the body's outcome: body ok → commit (caught by the
`except` if it raises, triggering rollback); body error → rollback and
re-raise; `close` unconditionally last. -/
def sessionScope {ε α : Type} (f : SessionFates ε) (body : Except ε α) :
    Except ε α × List Ev :=
  match body with
  | .ok a =>
    match f.commitFail with
    | none => (.ok a, [.commit, .close])
    | some e =>
      match f.rollbackFail with
      | none => (.error e, [.commitFailed, .rollback, .close])
      | some e2 => (.error e2, [.commitFailed, .rollbackFailed, .close])
  | .error e =>
    match f.rollbackFail with
    | none => (.error e, [.rollback, .close])
    | some e2 => (.error e2, [.rollbackFailed, .close])

/-- C1: for every body passed to the scoped unit-of-work `session()`:
if the body completes without error the Session is committed and then
closed and the body's value is returned; if the body raises, the Session is
rolled back, then closed, and the original error is re-propagated
unchanged; and on every path — even when commit or rollback itself raises —
`close` runs, exactly once, as the last action before control returns. -/
theorem session_scope_contract {ε α : Type} (f : SessionFates ε) (body : Except ε α) :
    (∀ a, body = .ok a → f.commitFail = none →
      sessionScope f body = (.ok a, [.commit, .close])) ∧
    (∀ e, body = .error e → f.rollbackFail = none →
      sessionScope f body = (.error e, [.rollback, .close])) ∧
    (sessionScope f body).2.getLast? = some .close ∧
    (sessionScope f body).2.count .close = 1 := by
  unfold sessionScope
  rcases body with a | e <;> rcases hc : f.commitFail with _ | e1 <;>
    rcases hr : f.rollbackFail with _ | e2 <;>
    exact ⟨fun a2 ha hc2 => by simp_all, fun e3 he hr2 => by simp_all,
      by simp [hc, hr], by simp [hc, hr]⟩

/-- C1 witness: the theorem applied at a concrete succeeding body and a
concrete failing body, with commit and rollback succeeding. -/
theorem session_scope_contract_witness :
    sessionScope (⟨none, none⟩ : SessionFates String) (.ok 5 : Except String Nat) =
      (.ok 5, [.commit, .close]) ∧
    sessionScope (⟨none, none⟩ : SessionFates String) (.error "boom" : Except String Nat) =
      (.error "boom", [.rollback, .close]) :=
  ⟨(session_scope_contract ⟨none, none⟩ (.ok 5)).1 5 rfl rfl,
   (session_scope_contract ⟨none, none⟩ (.error "boom")).2.1 "boom" rfl rfl⟩

/-! ## The scoped-session registry

`self.Session = scoped_session(sessionmaker(bind=self.engine,
query_cls=_Query))` (manager.py line 61).  SQLAlchemy's `scoped_session` is
a registry keyed by calling context (thread): `Session()` returns the
context's existing Session if the context already holds one, and otherwise
creates a fresh Session, records it for the context, and returns it.
Closing a Session does not remove it from the registry (only
`Session.remove()` would, and the source never calls it).  We model the
registry as an association list from context identifier to session
identifier together with a counter supplying fresh session identifiers. -/

/-- The `scoped_session` registry: context identifier ↦ session identifier,
plus the next fresh session identifier. -/
structure Registry where
  table : List (Nat × Nat)
  nextSid : Nat
  deriving DecidableEq, Repr

/-- `self.Session()` under `scoped_session`: return the context's session
if present, else create a fresh one and record it. -/
def scopedAcquire (r : Registry) (ctx : Nat) : Nat × Registry :=
  match r.table.lookup ctx with
  | some sid => (sid, r)
  | none => (r.nextSid, ⟨(ctx, r.nextSid) :: r.table, r.nextSid + 1⟩)

/-- Well-formedness of the registry: every recorded session identifier is
below the fresh counter, no context appears twice, and no session is
recorded for two contexts. -/
def Registry.WF (r : Registry) : Prop :=
  (∀ p ∈ r.table, p.2 < r.nextSid) ∧
  (r.table.map Prod.fst).Nodup ∧
  (r.table.map Prod.snd).Nodup

/-- Lookup skips a cons cell with a different key. -/
theorem lookup_cons_ne {β : Type} {k k' : Nat} {v : β} {l : List (Nat × β)}
    (h : k' ≠ k) : ((k, v) :: l).lookup k' = l.lookup k' := by
  rw [List.lookup_cons]
  have hb : (k' == k) = false := by simpa using h
  rw [hb]

/-- A successful lookup is a membership. -/
theorem lookup_mem {β : Type} {l : List (Nat × β)} {k : Nat} {v : β}
    (h : l.lookup k = some v) : (k, v) ∈ l := by
  obtain ⟨l1, l2, rfl, -⟩ := List.lookup_eq_some_iff.mp h
  simp

/-- With no duplicate values, lookups at different keys yield different
values. -/
theorem lookup_snd_nodup_ne {l : List (Nat × Nat)} (hnd : (l.map Prod.snd).Nodup)
    {k1 k2 v1 v2 : Nat} (hk : k1 ≠ k2)
    (h1 : l.lookup k1 = some v1) (h2 : l.lookup k2 = some v2) : v1 ≠ v2 := by
  induction l with
  | nil => simp at h1
  | cons p t ih =>
    obtain ⟨k, v⟩ := p
    rw [List.map_cons, List.nodup_cons] at hnd
    by_cases e1 : k1 = k
    · subst e1
      rw [List.lookup_cons_self] at h1
      obtain rfl : v = v1 := Option.some.inj h1
      rw [lookup_cons_ne (fun he => hk he.symm)] at h2
      intro he
      apply hnd.1
      rw [he]
      have hm : (k2, v2) ∈ t := lookup_mem h2
      exact List.mem_map.mpr ⟨(k2, v2), hm, rfl⟩
    · by_cases e2 : k2 = k
      · subst e2
        rw [List.lookup_cons_self] at h2
        obtain rfl : v = v2 := Option.some.inj h2
        rw [lookup_cons_ne e1] at h1
        intro he
        apply hnd.1
        rw [← he]
        have hm : (k1, v1) ∈ t := lookup_mem h1
        exact List.mem_map.mpr ⟨(k1, v1), hm, rfl⟩
      · rw [lookup_cons_ne e1] at h1
        rw [lookup_cons_ne e2] at h2
        exact ih hnd.2 h1 h2

/-- Acquiring records the returned session for the context. -/
theorem scopedAcquire_lookup_self (r : Registry) (ctx : Nat) :
    ((scopedAcquire r ctx).2).table.lookup ctx = some (scopedAcquire r ctx).1 := by
  unfold scopedAcquire
  cases h : r.table.lookup ctx with
  | some sid => simpa using h
  | none => simp [List.lookup_cons_self]

/-- Acquiring for any context never disturbs another context's recorded
session. -/
theorem scopedAcquire_lookup_stable {r : Registry} {ctx sid : Nat}
    (h : r.table.lookup ctx = some sid) (c : Nat) :
    ((scopedAcquire r c).2).table.lookup ctx = some sid := by
  unfold scopedAcquire
  cases hc : r.table.lookup c with
  | some s => simpa using h
  | none =>
    have hne : ctx ≠ c := fun he => by rw [he, hc] at h; exact Option.noConfusion h
    simpa [lookup_cons_ne hne] using h

/-- Acquiring preserves registry well-formedness. -/
theorem scopedAcquire_WF {r : Registry} (hwf : Registry.WF r) (ctx : Nat) :
    Registry.WF (scopedAcquire r ctx).2 := by
  obtain ⟨hbound, hfst, hsnd⟩ := hwf
  unfold scopedAcquire
  cases hc : r.table.lookup ctx with
  | some sid => exact ⟨hbound, hfst, hsnd⟩
  | none =>
    refine ⟨?_, ?_, ?_⟩
    · intro p hp
      rcases List.mem_cons.mp hp with rfl | hp'
      · exact Nat.lt_succ_self _
      · exact Nat.lt_succ_of_lt (hbound p hp')
    · rw [List.map_cons, List.nodup_cons]
      refine ⟨?_, hfst⟩
      intro hmem
      rcases List.mem_map.mp hmem with ⟨p, hp, hpe⟩
      have := List.lookup_eq_none_iff.mp hc p hp
      simp only [bne_iff_ne, ne_eq] at this
      exact this hpe.symm
    · rw [List.map_cons, List.nodup_cons]
      refine ⟨?_, hsnd⟩
      intro hmem
      rcases List.mem_map.mp hmem with ⟨p, hp, hpe⟩
      exact absurd (hpe ▸ hbound p hp) (Nat.lt_irrefl _)

/-- A sequence of acquisitions by arbitrary contexts. -/
def acquireMany (r : Registry) (cs : List Nat) : Registry :=
  cs.foldl (fun s c => (scopedAcquire s c).2) r

/-- A recorded session survives any sequence of acquisitions. -/
theorem acquireMany_lookup_stable {r : Registry} {ctx sid : Nat}
    (h : r.table.lookup ctx = some sid) (cs : List Nat) :
    (acquireMany r cs).table.lookup ctx = some sid := by
  induction cs generalizing r with
  | nil => exact h
  | cons c t ih => exact ih (scopedAcquire_lookup_stable h c)

/-! ## Query objects and manager operations

`_SQLRaw` (manager.py lines 12-22) wraps the materialized rows of a raw
query.  `_Query` (manager.py lines 24-43) is the SQLAlchemy `Query`
subclass returned by `orm`: it carries its bound session and its composed
statement (modelled as the entity type plus the chain of applied builder
operations), and adds the terminal `to_df`.  The manager operations thread
the `scoped_session` registry explicitly: the calling context is an input,
as in SQLAlchemy it is the thread identity. -/

/-- `_SQLRaw` (manager.py lines 12-22): the materialized rows of a raw
query, held after the session is closed. -/
structure _SQLRaw (Row : Type) where
  _data : List Row
  deriving DecidableEq, Repr

/-- `_Query` (manager.py lines 24-43): a composed query bound to one
session and one entity type; `filters` records the chain of builder
operations applied so far. -/
structure _Query where
  sessionId : Nat
  model : Nat
  filters : List Nat
  deriving DecidableEq, Repr

/-- A chained builder call such as `.filter(...)` inherited from
SQLAlchemy's `Query`: it extends the composed statement and performs no
session-lifecycle action (second component: the session events it emits). -/
def _Query.addFilter (q : _Query) (f : Nat) : _Query × List Ev :=
  (⟨q.sessionId, q.model, q.filters ++ [f]⟩, [])

/-- `try ... finally` over a traced computation: the cleanup events run
after the body's events on both outcomes, and the body's outcome is
returned. -/
def tryFinallyTrace {ε α : Type} (body : Except ε α × List (Nat × Ev))
    (cleanup : List (Nat × Ev)) : Except ε α × List (Nat × Ev) :=
  (body.1, body.2 ++ cleanup)

/-- `_Query.to_df` (manager.py lines 27-43):

    try:
        df = pd.read_sql(self.statement, self.session.bind)
        return df
    finally:
        self.session.close()

The outcome of `pd.read_sql` against the bound connection is an input;
events are tagged with the session they act on.  `(sid, execOnBind)` is the
direct execution of the composed statement against `self.session.bind`;
no `materializeRows` event ever occurs (the rows are never loaded as ORM
objects); the `finally` closes the bound session on both outcomes. -/
def _Query.to_df {ε DF : Type} (q : _Query) (readSqlResult : Except ε DF) :
    Except ε DF × List (Nat × Ev) :=
  tryFinallyTrace (readSqlResult, [(q.sessionId, .execOnBind)]) [(q.sessionId, .close)]

/-- C6: for every query handle produced by `orm`, the terminal `to_df`
executes the composed statement directly against the bound connection —
never via row-object materialization — returns `pd.read_sql`'s outcome
unchanged, and closes the bound Session afterward on every outcome,
success or failure, as its last action. -/
theorem to_df_contract {ε DF : Type} (q : _Query) (readSqlResult : Except ε DF) :
    (q.to_df readSqlResult).1 = readSqlResult ∧
    (q.to_df readSqlResult).2 =
      [(q.sessionId, Ev.execOnBind), (q.sessionId, Ev.close)] ∧
    (∀ sid, (sid, Ev.materializeRows) ∉ (q.to_df readSqlResult).2) ∧
    (q.to_df readSqlResult).2.getLast? = some (q.sessionId, Ev.close) := by
  refine ⟨rfl, rfl, ?_, rfl⟩
  intro sid hmem
  simp [_Query.to_df, tryFinallyTrace] at hmem

/-- C6 witness: the theorem applied at a concrete bound query, for a
succeeding and a failing `pd.read_sql`. -/
theorem to_df_contract_witness :
    ((⟨3, 1, []⟩ : _Query).to_df (.ok (42 : Nat) : Except String Nat)).2 =
      [(3, Ev.execOnBind), (3, Ev.close)] ∧
    ((⟨3, 1, []⟩ : _Query).to_df (.error "exec failed" : Except String Nat)).2.getLast? =
      some (3, Ev.close) :=
  ⟨(to_df_contract (⟨3, 1, []⟩ : _Query) (.ok 42 : Except String Nat)).2.1,
   (to_df_contract (⟨3, 1, []⟩ : _Query)
      (.error "exec failed" : Except String Nat)).2.2.2⟩

/-- `DatabaseManager.orm` (manager.py lines 165-180):
`return self.Session().query(model)` — acquire the calling context's scoped
session and return a fresh query on `model` bound to it, performing no
session-lifecycle action (second component of the result's first pair). -/
def DatabaseManager.orm (r : Registry) (ctx : Nat) (model : Nat) :
    (_Query × List Ev) × Registry :=
  let acq := scopedAcquire r ctx
  ((⟨acq.1, model, []⟩, []), acq.2)

/-- C7 counterexample: starting from an empty registry, two consecutive
`orm` calls from the same calling context return queries bound to the SAME
session — `self.Session()` is a `scoped_session`, so the second call is not
bound to a new Session. -/
theorem orm_same_context_reuses_session :
    ((DatabaseManager.orm
        ((DatabaseManager.orm ⟨[], 0⟩ 0 1).2) 0 2).1.1.sessionId =
      (DatabaseManager.orm (⟨[], 0⟩ : Registry) 0 1).1.1.sessionId) ∧
    (DatabaseManager.orm (⟨[], 0⟩ : Registry) 0 1).1.1.sessionId = 0 := by
  refine ⟨rfl, rfl⟩

/-- C7 (amended): every call to `orm(entity_type)` returns a fresh
composable query (empty builder chain) on the given entity type, bound to
the calling context's current scoped Session (created on first use in that
context); the acquisition is not wrapped in a unit-of-work — no commit,
rollback or close event is emitted at acquisition time — and chained
builder calls keep the same bound session open, emitting no
session-lifecycle event until a terminal operation executes. -/
theorem orm_query_contract (r : Registry) (ctx model : Nat) :
    ((DatabaseManager.orm r ctx model).1.1.filters = []) ∧
    ((DatabaseManager.orm r ctx model).1.1.model = model) ∧
    ((DatabaseManager.orm r ctx model).1.1.sessionId = (scopedAcquire r ctx).1) ∧
    ((DatabaseManager.orm r ctx model).1.2 = []) ∧
    (∀ f, ((DatabaseManager.orm r ctx model).1.1.addFilter f).1.sessionId =
        (DatabaseManager.orm r ctx model).1.1.sessionId ∧
      ((DatabaseManager.orm r ctx model).1.1.addFilter f).2 = []) :=
  ⟨rfl, rfl, rfl, rfl, fun _ => ⟨rfl, rfl⟩⟩

/-- C7 (amended) witness: the theorem applied at an empty registry,
context 0, entity type 1 and a chained builder call. -/
theorem orm_query_contract_witness :
    (DatabaseManager.orm (⟨[], 0⟩ : Registry) 0 1).1.1.filters = [] ∧
    ((DatabaseManager.orm (⟨[], 0⟩ : Registry) 0 1).1.1.addFilter 9).1.sessionId =
      (DatabaseManager.orm (⟨[], 0⟩ : Registry) 0 1).1.1.sessionId :=
  ⟨(orm_query_contract ⟨[], 0⟩ 0 1).1,
   ((orm_query_contract ⟨[], 0⟩ 0 1).2.2.2.2 9).1⟩

/-- `DatabaseManager.session` as a manager operation (manager.py lines
129-140): `session = self.Session()` acquires the calling context's scoped
session, then the unit-of-work semantics of `session` run the body with
it. -/
def DatabaseManager.session {ε α : Type} (r : Registry) (ctx : Nat)
    (f : SessionFates ε) (body : Nat → Except ε α) :
    (Except ε α × List Ev) × Registry :=
  let acq := scopedAcquire r ctx
  (sessionScope f (body acq.1), acq.2)

/-- `DatabaseManager.sql_raw` (manager.py lines 142-163):

    with self.session() as session:
        result = session.execute(text(query), params or {})
        return _SQLRaw(result.all())

The engine's row answer for the parameterized statement (or its raised
execution error) is an input; the rows are materialized inside the
unit-of-work and wrapped in `_SQLRaw`. -/
def DatabaseManager.sql_raw {ε Row : Type} (r : Registry) (ctx : Nat)
    (f : SessionFates ε) (execResult : Except ε (List Row)) :
    (Except ε (_SQLRaw Row) × List Ev) × Registry :=
  DatabaseManager.session r ctx f (fun _ => execResult.map _SQLRaw.mk)

/-- C5: for every statement whose execution succeeds but yields zero rows,
`sql_raw` returns an empty tabular result and never an error (commit of the
read-only unit of work succeeding). -/
theorem sql_raw_empty_result (r : Registry) (ctx : Nat) {ε Row : Type}
    (f : SessionFates ε) (execResult : Except ε (List Row))
    (hc : f.commitFail = none) (he : execResult = .ok []) :
    (DatabaseManager.sql_raw r ctx f execResult).1.1 = .ok ⟨[]⟩ ∧
    ∀ e, (DatabaseManager.sql_raw r ctx f execResult).1.1 ≠ .error e := by
  subst he
  constructor
  · simp [DatabaseManager.sql_raw, DatabaseManager.session, sessionScope, Except.map, hc]
  · intro e
    simp [DatabaseManager.sql_raw, DatabaseManager.session, sessionScope, Except.map, hc]

/-- C5 witness: the theorem applied at an empty registry, context 0,
succeeding commit, and a concrete zero-row execution. -/
theorem sql_raw_empty_result_witness :
    (DatabaseManager.sql_raw (⟨[], 0⟩ : Registry) 0
        (⟨none, none⟩ : SessionFates String) (.ok ([] : List Nat))).1.1 =
      .ok ⟨[]⟩ :=
  (sql_raw_empty_result ⟨[], 0⟩ 0 ⟨none, none⟩ (.ok []) rfl rfl).1

/-- The result of an acquisition whose context is already recorded. -/
theorem scopedAcquire_fst_of_lookup {r : Registry} {ctx sid : Nat}
    (h : r.table.lookup ctx = some sid) : (scopedAcquire r ctx).1 = sid := by
  unfold scopedAcquire
  rw [h]

/-- The result of an acquisition whose context is not yet recorded. -/
theorem scopedAcquire_of_lookup_none {r : Registry} {ctx : Nat}
    (h : r.table.lookup ctx = none) :
    scopedAcquire r ctx =
      (r.nextSid, ⟨(ctx, r.nextSid) :: r.table, r.nextSid + 1⟩) := by
  unfold scopedAcquire
  rw [h]

/-- The result of an acquisition whose context is recorded, as a pair. -/
theorem scopedAcquire_of_lookup_some {r : Registry} {ctx sid : Nat}
    (h : r.table.lookup ctx = some sid) : scopedAcquire r ctx = (sid, r) := by
  unfold scopedAcquire
  rw [h]

/-- Distinct contexts acquire distinct sessions from a well-formed
registry. -/
theorem scopedAcquire_distinct {r : Registry} (hwf : Registry.WF r)
    {ctx ctx' : Nat} (hne : ctx ≠ ctx') :
    (scopedAcquire (scopedAcquire r ctx).2 ctx').1 ≠ (scopedAcquire r ctx).1 := by
  obtain ⟨hbound, hfst, hsnd⟩ := hwf
  cases h1 : r.table.lookup ctx with
  | some sid =>
    rw [scopedAcquire_of_lookup_some h1]
    cases h2 : r.table.lookup ctx' with
    | some sid' =>
      rw [scopedAcquire_fst_of_lookup h2]
      exact lookup_snd_nodup_ne hsnd (fun he => hne he.symm) h2 h1
    | none =>
      rw [(scopedAcquire_of_lookup_none h2)]
      have hlt : sid < r.nextSid := hbound _ (lookup_mem h1)
      intro he
      simp only [Prod.fst] at he
      exact absurd (he ▸ hlt) (Nat.lt_irrefl _)
  | none =>
    rw [scopedAcquire_of_lookup_none h1]
    have hskip : ((ctx, r.nextSid) :: r.table).lookup ctx' = r.table.lookup ctx' :=
      lookup_cons_ne (fun he => hne he.symm)
    cases h2 : r.table.lookup ctx' with
    | some sid' =>
      have : (Registry.mk ((ctx, r.nextSid) :: r.table) (r.nextSid + 1)).table.lookup ctx' =
          some sid' := by rw [hskip, h2]
      rw [scopedAcquire_fst_of_lookup this]
      have hlt : sid' < r.nextSid := hbound _ (lookup_mem h2)
      exact Nat.ne_of_lt hlt
    | none =>
      have : (Registry.mk ((ctx, r.nextSid) :: r.table) (r.nextSid + 1)).table.lookup ctx' =
          none := by rw [hskip, h2]
      rw [scopedAcquire_of_lookup_none this]
      exact Nat.succ_ne_self _

/-- C8: within one calling context repeated requests for the current
Session return the same Session — immediately and across any interleaved
acquisitions by other contexts — while requests from different calling
contexts return distinct Sessions; and the registry invariant backing this
is preserved by every manager operation that touches the registry
(`session`, `sql_raw`, `orm`). -/
theorem scoped_session_invariant (r : Registry) (ctx ctx' : Nat)
    (others : List Nat) {ε α : Type} (f : SessionFates ε)
    (body : Nat → Except ε α) (execResult : Except ε (List α)) (model : Nat) :
    ((scopedAcquire (scopedAcquire r ctx).2 ctx).1 = (scopedAcquire r ctx).1) ∧
    ((scopedAcquire (acquireMany (scopedAcquire r ctx).2 others) ctx).1 =
      (scopedAcquire r ctx).1) ∧
    (Registry.WF r → ctx ≠ ctx' →
      (scopedAcquire (scopedAcquire r ctx).2 ctx').1 ≠ (scopedAcquire r ctx).1) ∧
    (Registry.WF r → Registry.WF (scopedAcquire r ctx).2) ∧
    (Registry.WF r → Registry.WF (DatabaseManager.session r ctx f body).2) ∧
    (Registry.WF r → Registry.WF (DatabaseManager.sql_raw r ctx f execResult).2) ∧
    (Registry.WF r → Registry.WF (DatabaseManager.orm r ctx model).2) :=
  ⟨scopedAcquire_fst_of_lookup (scopedAcquire_lookup_self r ctx),
   scopedAcquire_fst_of_lookup
     (acquireMany_lookup_stable (scopedAcquire_lookup_self r ctx) others),
   fun hwf hne => scopedAcquire_distinct hwf hne,
   fun h => scopedAcquire_WF h ctx,
   fun h => scopedAcquire_WF h ctx,
   fun h => scopedAcquire_WF h ctx,
   fun h => scopedAcquire_WF h ctx⟩

/-- C8 witness: the theorem applied at an empty registry, contexts 0 and 1,
an interleaved acquisition by context 5, and concrete operation inputs;
the well-formedness hypotheses are discharged concretely. -/
theorem scoped_session_invariant_witness :
    (scopedAcquire (acquireMany (scopedAcquire ⟨[], 0⟩ 0).2 [5]) 0).1 =
      (scopedAcquire (⟨[], 0⟩ : Registry) 0).1 ∧
    (scopedAcquire (scopedAcquire ⟨[], 0⟩ 0).2 1).1 ≠
      (scopedAcquire (⟨[], 0⟩ : Registry) 0).1 ∧
    Registry.WF (DatabaseManager.orm (⟨[], 0⟩ : Registry) 0 7).2 := by
  have hwf : Registry.WF ⟨[], 0⟩ := ⟨by simp, by simp, by simp⟩
  have h := scoped_session_invariant ⟨[], 0⟩ 0 1 [5]
    (⟨none, none⟩ : SessionFates String) (fun _ => .ok (0 : Nat)) (.ok []) 7
  exact ⟨h.2.1, h.2.2.1 hwf (by decide), h.2.2.2.2.2.2 hwf⟩

/-! ## Manager construction

`DatabaseManager.__init__` (manager.py lines 51-72):

    self.engine = create_engine(database_url, echo=echo_queries)
    self.Session = scoped_session(sessionmaker(bind=self.engine, query_cls=_Query))
    try:
        with self.engine.connect() as conn:
            conn.execute(text("SELECT 1"))
            print("[INFO] Banco de dados conectado.")
            if base_models:
                print("[INFO] Criando tabelas no banco de dados.")
                self.create_all(base_models.metadata)
    except SQLAlchemyError as e:
        print(f"[Erro de conexão ao banco]: \x7be\x7d")

Note the guarded region: `create_engine` (line 60) runs BEFORE the
`try`, so an error it raises (SQLAlchemy's `create_engine` raises, e.g.,
`ArgumentError` — a `SQLAlchemyError` — when the connection string cannot
be parsed, and `NoSuchModuleError` for an unknown dialect) propagates out
of construction; only errors raised inside the `with` block — the
connect/probe and the conditional `create_all` — reach the `except`
clause, and that clause catches exactly `SQLAlchemyError`.  The outcomes of
the three external engine calls are inputs to the embedding. -/

/-- Errors the external engine calls can raise: SQLAlchemy's own hierarchy
(caught by the source's `except SQLAlchemyError`) versus any other
exception (not caught). -/
inductive DBError
  | sqlalchemy (msg : String)
  | other (msg : String)
  deriving DecidableEq, Repr

/-- Whether `except SQLAlchemyError` catches this error. -/
def DBError.isSQLAlchemyError : DBError → Bool
  | .sqlalchemy _ => true
  | .other _ => false

/-- The error's message, as interpolated into the report. -/
def DBError.msg : DBError → String
  | .sqlalchemy m => m
  | .other m => m

/-- Outcomes of the three external engine calls made during
construction: `create_engine(database_url, ...)`, the connect-and-probe
`conn.execute(text("SELECT 1"))`, and the `create_all` DDL when a
declarative base was supplied. -/
structure EngineBehavior where
  createEngine : Except DBError Unit
  probe : Except DBError Unit
  ddl : Except DBError Unit

/-- Observable side effects of construction, in order.  `ddlAttempted`
marks the invocation of `create_all` (table-creation DDL);
`connectionErrorReported` is the `print` in the `except` clause. -/
inductive InitEv
  | engineCreated
  | sessionFactoryBound
  | infoConnected
  | infoCreatingTables
  | ddlAttempted
  | connectionErrorReported (msg : String)
  deriving DecidableEq, Repr

/-- The constructed manager: which attributes were set before control
returned (both are assigned before the `try`, so a manager that finishes
construction always has both). -/
structure ManagerState where
  engineSet : Bool
  sessionFactorySet : Bool
  deriving DecidableEq, Repr

/-- `DatabaseManager.__init__` (manager.py lines 51-72): the result is the
constructed manager, or the error construction propagates; the event list
is everything that observably happened before control returned. -/
def DatabaseManager.init (beh : EngineBehavior) (hasBase : Bool) :
    Except DBError ManagerState × List InitEv :=
  match beh.createEngine with
  | .error e => (.error e, [])
  | .ok _ =>
    match beh.probe with
    | .error e =>
      if e.isSQLAlchemyError then
        (.ok ⟨true, true⟩,
          [.engineCreated, .sessionFactoryBound, .connectionErrorReported e.msg])
      else
        (.error e, [.engineCreated, .sessionFactoryBound])
    | .ok _ =>
      if hasBase then
        match beh.ddl with
        | .ok _ =>
          (.ok ⟨true, true⟩,
            [.engineCreated, .sessionFactoryBound, .infoConnected,
              .infoCreatingTables, .ddlAttempted])
        | .error e =>
          if e.isSQLAlchemyError then
            (.ok ⟨true, true⟩,
              [.engineCreated, .sessionFactoryBound, .infoConnected,
                .infoCreatingTables, .ddlAttempted, .connectionErrorReported e.msg])
          else
            (.error e,
              [.engineCreated, .sessionFactoryBound, .infoConnected,
                .infoCreatingTables, .ddlAttempted])
      else
        (.ok ⟨true, true⟩, [.engineCreated, .sessionFactoryBound, .infoConnected])

/-- C2 counterexample: a bad connection string — `create_engine` raising a
`SQLAlchemyError` while parsing the URL — happens before the `try` block,
so construction propagates the error instead of catching and reporting it:
no manager object is returned. -/
theorem manager_init_bad_url_propagates :
    (DatabaseManager.init
        ⟨.error (.sqlalchemy "Could not parse SQLAlchemy URL"), .ok (), .ok ()⟩
        true).1 =
      .error (DBError.sqlalchemy "Could not parse SQLAlchemy URL") ∧
    (DatabaseManager.init
        ⟨.error (.sqlalchemy "Could not parse SQLAlchemy URL"), .ok (), .ok ()⟩
        true).2 = [] := ⟨rfl, rfl⟩

/-- C2 (amended): any engine-level failure raised during the
construction-time connectivity probe (engine unreachable, failed liveness
statement — SQLAlchemy errors raised inside the guarded `with` block) is
caught and reported rather than raised: construction completes, the
failure is surfaced to the observability channel, and the returned manager
has its engine and session factory set, so it remains usable for later
retry.  (An error raised by `create_engine` itself on a malformed
connection string precedes the guarded block and propagates.) -/
theorem manager_init_probe_failure_caught (beh : EngineBehavior)
    (hasBase : Bool) (e : DBError)
    (h1 : beh.createEngine = .ok ()) (h2 : beh.probe = .error e)
    (h3 : e.isSQLAlchemyError = true) :
    (DatabaseManager.init beh hasBase).1 = .ok ⟨true, true⟩ ∧
    InitEv.connectionErrorReported e.msg ∈ (DatabaseManager.init beh hasBase).2 := by
  unfold DatabaseManager.init
  rw [h1, h2]
  simp [h3]

/-- C2 (amended) witness: the theorem applied at a concrete behaviour whose
probe raises an unreachable-engine `SQLAlchemyError`. -/
theorem manager_init_probe_failure_caught_witness :
    (DatabaseManager.init
        ⟨.ok (), .error (.sqlalchemy "connection refused"), .ok ()⟩ true).1 =
      .ok ⟨true, true⟩ :=
  (manager_init_probe_failure_caught
    ⟨.ok (), .error (.sqlalchemy "connection refused"), .ok ()⟩ true
    (.sqlalchemy "connection refused") rfl rfl rfl).1

/-- C10: if the construction-time connectivity probe raises, no
table-creation DDL is issued even when a schema descriptor was supplied;
in general, `create_all` is invoked during construction only when the
probe statement (and engine creation before it) succeeded. -/
theorem manager_init_no_ddl_without_probe (beh : EngineBehavior) (hasBase : Bool) :
    (∀ e, beh.probe = .error e →
      InitEv.ddlAttempted ∉ (DatabaseManager.init beh hasBase).2) ∧
    (InitEv.ddlAttempted ∈ (DatabaseManager.init beh hasBase).2 →
      beh.probe = .ok () ∧ beh.createEngine = .ok ()) := by
  unfold DatabaseManager.init
  rcases hce : beh.createEngine with e0 | u0
  · exact ⟨fun e he => by simp, fun hmem => absurd hmem (by simp)⟩
  · obtain ⟨⟩ := u0
    rcases hp : beh.probe with e1 | u1
    · refine ⟨fun e he => ?_, fun hmem => ?_⟩
      · by_cases h3 : e1.isSQLAlchemyError <;> simp [h3]
      · by_cases h3 : e1.isSQLAlchemyError <;> simp [h3] at hmem
    · obtain ⟨⟩ := u1
      refine ⟨fun e he => absurd he (by simp), fun hmem => ⟨rfl, rfl⟩⟩

/-- C10 witness: the theorem applied at a concrete behaviour whose probe
fails although a schema descriptor was supplied. -/
theorem manager_init_no_ddl_without_probe_witness :
    InitEv.ddlAttempted ∉
      (DatabaseManager.init
        ⟨.ok (), .error (.sqlalchemy "timeout"), .ok ()⟩ true).2 :=
  (manager_init_no_ddl_without_probe
      ⟨.ok (), .error (.sqlalchemy "timeout"), .ok ()⟩ true).1
    (.sqlalchemy "timeout") rfl

/-! ## Schema administration

`DatabaseManager.create_all` (manager.py lines 184-193) is
`base_metadata.create_all(self.engine)`.  SQLAlchemy's
`MetaData.create_all` runs with `checkfirst=True`: it emits CREATE TABLE
for each table of the metadata that does not already exist in the
database, and skips the ones that do.  We embed the database as the list
of its table names in creation order and the schema descriptor as the list
of its table names (unique within a `MetaData`). -/

/-- `DatabaseManager.create_all` (manager.py lines 184-193) acting on the
database's table list: create, in order, each described table that does not
already exist. -/
def DatabaseManager.create_all (schema db : List String) : List String :=
  db ++ schema.filter (fun t => !(db.contains t))

/-- C9: `create_all` is idempotent: a second call against the same schema
adds nothing (and raises no error — the operation is total); tables that
already exist are skipped, so no duplicate tables arise from distinct
table names; and every existing table and every described table is present
afterwards. -/
theorem create_all_idempotent (schema db : List String) :
    DatabaseManager.create_all schema (DatabaseManager.create_all schema db) =
      DatabaseManager.create_all schema db ∧
    (schema.Nodup → db.Nodup → (DatabaseManager.create_all schema db).Nodup) ∧
    (∀ t ∈ db, t ∈ DatabaseManager.create_all schema db) ∧
    (∀ t ∈ schema, t ∈ DatabaseManager.create_all schema db) := by
  refine ⟨?_, ?_, ?_, ?_⟩
  · unfold DatabaseManager.create_all
    have h : schema.filter
        (fun t => !((db ++ schema.filter (fun t => !(db.contains t))).contains t)) = [] := by
      rw [List.filter_eq_nil_iff]
      intro a ha
      simp only [List.contains, List.elem_iff, Bool.not_eq_true', Bool.not_eq_false,
        List.mem_append, List.mem_filter, decide_eq_true_eq]
      by_cases hdb : a ∈ db
      · exact Or.inl hdb
      · exact Or.inr ⟨ha, by simpa [List.elem_iff] using hdb⟩
    rw [h, List.append_nil]
  · intro hs hd
    unfold DatabaseManager.create_all
    refine hd.append (hs.filter _) ?_
    intro a had haf
    rw [List.mem_filter] at haf
    have : a ∉ db := by simpa [List.contains, List.elem_iff] using haf.2
    exact this had
  · intro t ht
    unfold DatabaseManager.create_all
    exact List.mem_append_left _ ht
  · intro t ht
    unfold DatabaseManager.create_all
    rw [List.mem_append]
    by_cases hdb : t ∈ db
    · exact Or.inl hdb
    · refine Or.inr (List.mem_filter.mpr ⟨ht, ?_⟩)
      simpa [List.contains, List.elem_iff] using hdb

/-- C9 witness: the theorem applied at a concrete schema and an empty
database, with the no-duplicates hypotheses discharged concretely. -/
theorem create_all_idempotent_witness :
    DatabaseManager.create_all ["users", "orders"]
        (DatabaseManager.create_all ["users", "orders"] []) =
      DatabaseManager.create_all ["users", "orders"] [] ∧
    (DatabaseManager.create_all ["users", "orders"] []).Nodup :=
  ⟨(create_all_idempotent ["users", "orders"] []).1,
   (create_all_idempotent ["users", "orders"] []).2.1 (by decide) (by decide)⟩

end DBM
